import Mathlib

/-
Verification of the MedOptix statistical comparison engine and dashboard
API service layer.

Sources embedded here:
- docs/ab_testing.md, the analyze_metric snippet (numpy/scipy semantics):
  this is the only statistical-engine code present in the repository tree,
  so it is the authority for the per-metric numeric computation.
- client/medoptix-dashboard/src/api/apiService.js: the dashboard data
  layer (mock data, axios fetch wrappers, update polling).
- The compare operation of the specification (validation shell, test
  dispatch) has no code in the tree (ab_test_analysis.py is listed in the
  README project structure but is not included); those definitions are
  modelled from the spec and marked as such.

Numeric modelling: sample values are embedded as exact rationals. The
Student t tail probability computed by scipy is a transcendental function
of the t statistic and the degrees of freedom; since the two-sided p-value
depends on t only through t^2, it is abstracted as a parameter
sf : rational t^2 -> df -> rational p, constrained by the range contract
PContract where a claim needs it. IEEE special values are modelled
explicitly: a NaN p-value is Option.none, and the effect size, an
irrational value num / sqrt msq, is carried as the exact pair
(esNum, esMSq) with its real value written with Real.sqrt in theorem
statements.
-/

namespace MedOptix

/-- Arithmetic mean of a list of rationals: embeds np.mean. (Empty lists
never arise in the claims, which require at least two observations.) -/
def mean (l : List ℚ) : ℚ := l.sum / (l.length : ℚ)

/-- Population variance (ddof = 0), the square of np.std with its default
arguments, as used by the snippet for the effect size denominator. -/
def pvarQ (l : List ℚ) : ℚ :=
  (l.map (fun x => (x - mean l) ^ 2)).sum / (l.length : ℚ)

/-- Sample variance (ddof = 1), as used internally by
scipy.stats.ttest_ind. -/
def svarQ (l : List ℚ) : ℚ :=
  (l.map (fun x => (x - mean l) ^ 2)).sum / ((l.length : ℚ) - 1)

/-- Pooled sample variance of scipy.stats.ttest_ind with its default
equal_var=True: ((na-1)*sa2 + (nb-1)*sb2) / (na+nb-2). -/
def pooledVar (a b : List ℚ) : ℚ :=
  (((a.length : ℚ) - 1) * svarQ a + ((b.length : ℚ) - 1) * svarQ b) /
    ((a.length : ℚ) + (b.length : ℚ) - 2)

/-- Square of the denominator of the ttest_ind t statistic:
pooledVar * (1/na + 1/nb). -/
def tDenomSq (a b : List ℚ) : ℚ :=
  pooledVar a b * (1 / (a.length : ℚ) + 1 / (b.length : ℚ))

/-- Degrees of freedom of the equal-variance two-sample t-test:
na + nb - 2. -/
def tdf (a b : List ℚ) : ℕ := a.length + b.length - 2

/-- Contract satisfied by the two-sided Student t tail probability
(a p-value is a probability): its values lie in [0, 1]. -/
def PContract (sf : ℚ → ℕ → ℚ) : Prop :=
  ∀ tsq df, 0 ≤ sf tsq df ∧ sf tsq df ≤ 1

/-- A concrete stand-in tail function used to instantiate theorems at
closed inputs; it satisfies PContract. -/
def sfHalf : ℚ → ℕ → ℚ := fun _ _ => 1 / 2

/-- The p-value of scipy.stats.ttest_ind(a, b) (default equal_var=True),
with sf abstracting the two-sided Student t tail as a function of t^2 and
df. IEEE float behaviour at a zero denominator is modelled explicitly:
with a nonzero numerator t is +-infinity and the tail probability is 0;
with numerator and denominator both zero t is NaN and so is the p-value
(none). -/
def ttest_ind_p (sf : ℚ → ℕ → ℚ) (a b : List ℚ) : Option ℚ :=
  if tDenomSq a b = 0 then
    (if mean a - mean b = 0 then none else some 0)
  else
    some (sf ((mean a - mean b) ^ 2 / tDenomSq a b) (tdf a b))

/-- The significance flag of the snippet: p_value < 0.05, with Python
comparison semantics at NaN (NaN < 0.05 is False). -/
def sigOf (p : Option ℚ) : Bool :=
  match p with
  | none => false
  | some q => decide (q < 1 / 20)

/-- Result dictionary of analyze_metric in docs/ab_testing.md. The
effect size of the snippet is difference / pooled_std with
pooled_std = sqrt((std(a)^2 + std(b)^2) / 2) (np.std, ddof = 0); its
exact value esNum / sqrt esMSq is carried as the pair (esNum, esMSq),
since the quotient is irrational in general. An esMSq of zero means the
float effect size is +-Inf (esNum nonzero) or NaN (esNum zero). -/
structure MetricResult where
  group_a_mean : ℚ
  group_b_mean : ℚ
  difference : ℚ
  p_value : Option ℚ
  significant : Bool
  esNum : ℚ
  esMSq : ℚ
deriving Repr, DecidableEq

/-- Embedding of analyze_metric from docs/ab_testing.md: means,
difference, ttest_ind p-value, significance at the fixed 0.05 threshold,
and effect size difference / sqrt((pvar a + pvar b) / 2). -/
def analyze_metric (sf : ℚ → ℕ → ℚ) (a b : List ℚ) : MetricResult :=
  let ma := mean a
  let mb := mean b
  let p := ttest_ind_p sf a b
  { group_a_mean := ma
    group_b_mean := mb
    difference := ma - mb
    p_value := p
    significant := sigOf p
    esNum := ma - mb
    esMSq := (pvarQ a + pvarQ b) / 2 }

/-- Numerator of the Cohen d of the specification:
mean of group A minus mean of group B. -/
def cohensDNum (a b : List ℚ) : ℚ := mean a - mean b

/-- Squared denominator of the Cohen d of the specification glossary:
the square of the pooled standard deviation of the two samples, in its
textbook sense ((na-1)*sa2 + (nb-1)*sb2)/(na+nb-2) over sample (ddof = 1)
variances. The Cohen d of the spec is cohensDNum / sqrt cohensDMSq. -/
def cohensDMSq (a b : List ℚ) : ℚ := pooledVar a b

/-- True when the Python float result contains a NaN or infinite numeric
field: p_value is NaN (none), or the effect size denominator sqrt esMSq
is zero so the effect size is +-Inf or NaN. -/
def hasNaNOrInf (r : MetricResult) : Bool :=
  decide (r.p_value = none) || decide (r.esMSq = 0)

/-- Value type of a metric; the unknown constructor carries a value type
tag outside {continuous, proportion}. -/
inductive ValueType where
  | continuous
  | proportion
  | unknown (tag : String)
deriving Repr, DecidableEq

/-- MetricSpec of the specification: name, value type, directionality,
and the caller-supplied non-normality hint (defaults to false). -/
structure MetricSpec where
  name : String
  vtype : ValueType
  lowerIsBetter : Bool
  nonNormal : Bool
deriving Repr, DecidableEq

/-- External statistical tail functions (scipy), abstracted: the Welch
two-sided tail as a function of t^2 and the rational Welch-Satterthwaite
degrees of freedom, the Mann-Whitney U p-value as a function of the two
samples, and the chi-square and Fisher exact p-values as functions of the
2x2 contingency counts (successes and failures per group). -/
structure StatsLib where
  welchSf : ℚ → ℚ → ℚ
  mannWhitney : List ℚ → List ℚ → ℚ
  chiSq : ℕ → ℕ → ℕ → ℕ → ℚ
  fisher : ℕ → ℕ → ℕ → ℕ → ℚ

/-- A concrete StatsLib stand-in (all tails 1/2), used to instantiate
theorems at closed inputs. -/
def statsLib0 : StatsLib :=
  { welchSf := fun _ _ => 1 / 2
    mannWhitney := fun _ _ => 1 / 2
    chiSq := fun _ _ _ _ => 1 / 2
    fisher := fun _ _ _ _ => 1 / 2 }

/-- Square of the Welch t statistic: the squared mean difference over
(sa2/na + sb2/nb), with per-group sample variances; it does not pool the
variances and is defined for unequal sample sizes. -/
def welchTSq (a b : List ℚ) : ℚ :=
  (mean a - mean b) ^ 2 /
    (svarQ a / (a.length : ℚ) + svarQ b / (b.length : ℚ))

/-- Welch-Satterthwaite degrees of freedom of the Welch t-test (a
rational, not an integer). -/
def welchDf (a b : List ℚ) : ℚ :=
  (svarQ a / (a.length : ℚ) + svarQ b / (b.length : ℚ)) ^ 2 /
    ((svarQ a / (a.length : ℚ)) ^ 2 / ((a.length : ℚ) - 1) +
      (svarQ b / (b.length : ℚ)) ^ 2 / ((b.length : ℚ) - 1))

/-- Number of successes in a 0/1 indicator sample. -/
def succCount (l : List ℚ) : ℕ := l.countP (fun x => decide (x = 1))

/-- True when some expected cell count of the 2x2 contingency table
{successes, failures} x {group A, group B} is below 5 (the chi-square
validity threshold of the spec, triggering the Fisher fallback). -/
def lowExpectedCell (a b : List ℚ) : Bool :=
  let na : ℚ := (a.length : ℚ)
  let nb : ℚ := (b.length : ℚ)
  let s : ℚ := ((succCount a + succCount b : ℕ) : ℚ)
  let f : ℚ := na + nb - s
  let n : ℚ := na + nb
  decide (s * na / n < 5) || decide (s * nb / n < 5) ||
    decide (f * na / n < 5) || decide (f * nb / n < 5)

/-- MetricResult of the spec engine. For continuous metrics the effect
size is the Cohen d esNum / sqrt esMSq with the textbook pooled variance;
for proportions it is the absolute rate difference (esNum with
esMSq = 1). -/
structure EngMetricResult where
  metricName : String
  meanA : ℚ
  meanB : ℚ
  difference : ℚ
  testName : String
  p_value : ℚ
  significant : Bool
  esNum : ℚ
  esMSq : ℚ
deriving Repr, DecidableEq

/-- Error taxonomy of the compare operation. -/
inductive CompareError where
  | insufficientData (metric : String)
  | unknownMetricType (metric : String)
  | mismatchedMetric (metric : String)
deriving Repr, DecidableEq

/-- Modelled from the spec: the per-metric algorithm of the compare
operation (spec section 4.1). The analysis program ab_test_analysis.py is
listed in the repository README but is not under src/, so its validation
and test-selection shell is modelled from the spec: fewer than 2
observations in either sample is InsufficientDataError; continuous
metrics get the Welch t-test (Mann-Whitney U under the non-normality
hint); proportions get the chi-square test on the 2x2 table with the
Fisher exact fallback below the expected-count threshold; significance is
p < 0.05. -/
def analyzeMetricSpec (lib : StatsLib) (ms : MetricSpec) (a b : List ℚ) :
    Except CompareError EngMetricResult :=
  if a.length < 2 ∨ b.length < 2 then
    .error (.insufficientData ms.name)
  else
    match ms.vtype with
    | .unknown _ => .error (.unknownMetricType ms.name)
    | .continuous =>
      let p : ℚ :=
        if ms.nonNormal then lib.mannWhitney a b
        else lib.welchSf (welchTSq a b) (welchDf a b)
      .ok { metricName := ms.name
            meanA := mean a
            meanB := mean b
            difference := mean a - mean b
            testName :=
              if ms.nonNormal then "Mann-Whitney U test"
              else "Welch two-sample t-test"
            p_value := p
            significant := decide (p < 1 / 20)
            esNum := mean a - mean b
            esMSq := pooledVar a b }
    | .proportion =>
      let sa := succCount a
      let sb := succCount b
      let p : ℚ :=
        if lowExpectedCell a b then
          lib.fisher sa (a.length - sa) sb (b.length - sb)
        else
          lib.chiSq sa (a.length - sa) sb (b.length - sb)
      .ok { metricName := ms.name
            meanA := mean a
            meanB := mean b
            difference := mean a - mean b
            testName :=
              if lowExpectedCell a b then "Fisher exact test"
              else "Chi-square test"
            p_value := p
            significant := decide (p < 1 / 20)
            esNum := |mean a - mean b|
            esMSq := 1 }

/-- Input of one compare call: the metric specs and the per-metric pair
of samples (group A, group B); none models a metric with no samples. -/
structure CompareInput where
  specs : List MetricSpec
  samples : String → Option (List ℚ × List ℚ)

/-- Modelled from the spec: aggregate verdict of the report. -/
inductive Verdict where
  | groupA
  | groupB
  | noConsistentWinner
deriving Repr, DecidableEq

/-- A metric favors group A when its difference points in the better
direction for A per the MetricSpec directionality. -/
def favorsA (ms : MetricSpec) (r : EngMetricResult) : Bool :=
  if ms.lowerIsBetter then decide (r.difference < 0)
  else decide (0 < r.difference)

/-- A metric favors group B in the opposite strict direction. -/
def favorsB (ms : MetricSpec) (r : EngMetricResult) : Bool :=
  if ms.lowerIsBetter then decide (0 < r.difference)
  else decide (r.difference < 0)

/-- Modelled from the spec: the aggregate verdict counts metrics won per
directionality; a strict majority names the group, a tie is no consistent
winner. -/
def verdictOf (pairs : List (MetricSpec × EngMetricResult)) : Verdict :=
  let aWins := (pairs.filter (fun pr => favorsA pr.1 pr.2)).length
  let bWins := (pairs.filter (fun pr => favorsB pr.1 pr.2)).length
  if bWins < aWins then .groupA
  else if aWins < bWins then .groupB
  else .noConsistentWinner

/-- ComparisonReport: ordered per-metric results plus the aggregate
verdict. -/
structure ComparisonReport where
  results : List EngMetricResult
  verdict : Verdict

/-- Per-spec recursion of compare: looks up the samples of each metric
(MismatchedMetricError when absent), analyzes it, and fails the whole
call on the first error (the spec forbids reports with omitted
metrics). -/
def compareAux (lib : StatsLib) (samples : String → Option (List ℚ × List ℚ)) :
    List MetricSpec → Except CompareError (List EngMetricResult)
  | [] => .ok []
  | ms :: rest =>
    match samples ms.name with
    | none => .error (.mismatchedMetric ms.name)
    | some (a, b) =>
      match analyzeMetricSpec lib ms a b with
      | .error e => .error e
      | .ok r =>
        match compareAux lib samples rest with
        | .error e => .error e
        | .ok rs => .ok (r :: rs)

/-- Modelled from the spec: the single public operation
compare(metricSpecs, samplesByGroupAndMetric) of the engine; a pure
function of its input. -/
def compare (lib : StatsLib) (inp : CompareInput) :
    Except CompareError ComparisonReport :=
  match compareAux lib inp.samples inp.specs with
  | .error e => .error e
  | .ok rs => .ok { results := rs, verdict := verdictOf (inp.specs.zip rs) }

/-- A sequence of compare calls, modelling repeated invocations of the
engine within one process: the engine keeps no state between calls, so a
session is just the list of per-call outputs. -/
def compareSession (lib : StatsLib) (calls : List CompareInput) :
    List (Except CompareError ComparisonReport) :=
  calls.map (compare lib)

/-- A concrete continuous MetricSpec used to instantiate theorems at
closed inputs. -/
def msWait : MetricSpec :=
  { name := "wait_time"
    vtype := ValueType.continuous
    lowerIsBetter := true
    nonNormal := false }

/-- A concrete one-metric compare input with two observations per group,
used to instantiate theorems at closed inputs. -/
def inpWait : CompareInput :=
  { specs := [msWait]
    samples := fun n => if n = "wait_time" then some ([10, 12], [20, 22]) else none }

end MedOptix

namespace MedOptix.ApiService

/-- Flag of apiService.js controlling mock data (a module constant,
set to true in the source). -/
def USE_MOCK_DATA : Bool := true

/-- fetchAppointments: returns response.data of GET /appointments, and
the empty array when the request throws. The HTTP outcome is the
Except argument; the error value is the thrown message. -/
def fetchAppointments {α : Type} (resp : Except String (List α)) : List α :=
  match resp with
  | .ok d => d
  | .error _ => []

/-- fetchFeedback: returns response.data of GET /feedback, and the empty
array when the request throws. -/
def fetchFeedback {α : Type} (resp : Except String (List α)) : List α :=
  match resp with
  | .ok d => d
  | .error _ => []

/-- fetchService: returns response.data of GET /service, and the empty
array when the request throws. -/
def fetchService {α : Type} (resp : Except String (List α)) : List α :=
  match resp with
  | .ok d => d
  | .error _ => []

/-- fetchStaff: returns response.data of GET /staff, and the empty array
when the request throws. -/
def fetchStaff {α : Type} (resp : Except String (List α)) : List α :=
  match resp with
  | .ok d => d
  | .error _ => []

/-- Alert record of the getRecentAlerts mock data; created_at is the
millisecond timestamp Date.now() - i*15*60000. -/
structure Alert where
  id : ℕ
  patient_name : String
  appointment_time : String
  risk_level : String
  created_at : ℤ
deriving Repr, DecidableEq

/-- The three mock alerts built by getRecentAlerts, parametrized by the
current millisecond clock value. -/
def mockAlerts (now : ℤ) : List Alert :=
  (List.range 3).map (fun i =>
    { id := 2000 + i
      patient_name := "Patient " ++ toString (8000 + i)
      appointment_time := "2023-06-" ++ toString (15 + i) ++ " 14:30"
      risk_level := "High"
      created_at := now - (i : ℤ) * 15 * 60000 })

/-- The try/catch body of getRecentAlerts around GET /alerts/recent:
response data on success, empty array on error. -/
def alertsRequest (resp : Except String (List Alert)) : List Alert :=
  match resp with
  | .ok d => d
  | .error _ => []

/-- getRecentAlerts: mock alerts when USE_MOCK_DATA, otherwise the
guarded request. -/
def getRecentAlerts (now : ℤ) (resp : Except String (List Alert)) : List Alert :=
  if USE_MOCK_DATA then mockAlerts now else alertsRequest resp

/-- Predicted-appointment record of the getPredictedAppointments mock
data. -/
structure Predicted where
  id : ℕ
  patient_name : String
  appointment_time : String
  no_show_probability : ℚ
  risk_level : String
deriving Repr, DecidableEq

/-- The ten mock predicted appointments: Math.random() is modelled as a
stream rnd of draws consumed in source order (one for the probability,
then up to two for the risk level). -/
def mockPredicted (rnd : ℕ → ℚ) : List Predicted :=
  (List.range 10).map (fun i =>
    { id := 1000 + i
      patient_name := "Patient " ++ toString (7000 + i)
      appointment_time := "2023-06-" ++ toString (15 + i) ++ " 10:00"
      no_show_probability := rnd (3 * i)
      risk_level :=
        if rnd (3 * i + 1) > 7 / 10 then "High"
        else if rnd (3 * i + 2) > 2 / 5 then "Medium"
        else "Low" })

/-- The try/catch body of getPredictedAppointments around
GET /appointments/predicted: response data on success, empty array on
error. -/
def predictedRequest (resp : Except String (List Predicted)) : List Predicted :=
  match resp with
  | .ok d => d
  | .error _ => []

/-- getPredictedAppointments: mock data when USE_MOCK_DATA, otherwise
the guarded request. -/
def getPredictedAppointments (rnd : ℕ → ℚ) (resp : Except String (List Predicted)) :
    List Predicted :=
  if USE_MOCK_DATA then mockPredicted rnd else predictedRequest resp

/-- One A/B testing variant of the getABTestingResults payload. -/
structure Variant where
  name : String
  sample_size : ℕ
  show_up_rate : ℚ
  no_show_rate : ℚ
  p_value : ℚ
  result : String
deriving Repr, DecidableEq

/-- Payload of getABTestingResults: variants plus chart rows
(variant name, show_up_rate). -/
structure ABResults where
  variants : List Variant
  chart_data : List (String × ℚ)
deriving Repr, DecidableEq

/-- The first mock variant of getABTestingResults, copied field by field
from apiService.js. -/
def smsVariant : Variant :=
  { name := "SMS Reminders"
    sample_size := 1250
    show_up_rate := 0.85
    no_show_rate := 0.15
    p_value := 0.032
    result := "Winner" }

/-- The second mock variant of getABTestingResults, copied field by
field from apiService.js. -/
def emailVariant : Variant :=
  { name := "Email Reminders"
    sample_size := 1250
    show_up_rate := 0.78
    no_show_rate := 0.22
    p_value := 0.032
    result := "Control" }

/-- The mock A/B testing payload returned by getABTestingResults when
USE_MOCK_DATA is set, copied field by field from apiService.js. -/
def mockABTestingResults : ABResults :=
  { variants := [smsVariant, emailVariant]
    chart_data :=
      [ ("SMS Reminders", 0.85), ("Email Reminders", 0.78) ] }

/-- getABTestingResults: the mock payload when USE_MOCK_DATA, otherwise
the guarded GET /ab-testing/results returning null (none) on error. -/
def getABTestingResults (resp : Except String ABResults) : Option ABResults :=
  if USE_MOCK_DATA then some mockABTestingResults
  else
    match resp with
    | .ok d => some d
    | .error _ => none

/-- JavaScript truthiness of a nullable string (null, undefined and the
empty string are falsy). -/
def jsTruthy : Option String → Bool
  | none => false
  | some s => decide (s ≠ "")

/-- checkForUpdates: stored is the module variable lastUpdateTimestamp
threaded explicitly, resp the outcome of GET /last_updated whose payload
timestamp is a nullable string. Returns the new stored value and the
boolean result: true exactly when the stored timestamp is truthy and the
fetched one differs (storing it); a falsy stored value is replaced by the
fetched one with result false; errors are caught, returning false with
the store unchanged. -/
def checkForUpdates (stored : Option String) (resp : Except String (Option String)) :
    Option String × Bool :=
  match resp with
  | .error _ => (stored, false)
  | .ok newT =>
    if jsTruthy stored && decide (newT ≠ stored) then (newT, true)
    else if !jsTruthy stored then (newT, false)
    else (stored, false)

/-- getLastUpdated: stores the fetched timestamp on success and returns
the payload (timestamp, formatted); on error returns a null timestamp
labelled Unknown, leaving the store unchanged. It shares the
lastUpdateTimestamp store with checkForUpdates. -/
def getLastUpdated (stored : Option String)
    (resp : Except String (Option String × String)) :
    Option String × (Option String × String) :=
  match resp with
  | .ok d => (d.1, d)
  | .error _ => (stored, (none, "Unknown"))

end MedOptix.ApiService

namespace MedOptix

theorem pooledVar_comm (a b : List ℚ) : pooledVar b a = pooledVar a b := by
  unfold pooledVar
  ring_nf

theorem tdf_comm (a b : List ℚ) : tdf b a = tdf a b := by
  unfold tdf
  omega

theorem tDenomSq_comm (a b : List ℚ) : tDenomSq b a = tDenomSq a b := by
  unfold tDenomSq
  rw [pooledVar_comm]
  ring

theorem ttest_ind_p_comm (sf : ℚ → ℕ → ℚ) (a b : List ℚ) :
    ttest_ind_p sf b a = ttest_ind_p sf a b := by
  unfold ttest_ind_p
  rw [tDenomSq_comm, tdf_comm]
  have h2 : (mean b - mean a) ^ 2 = (mean a - mean b) ^ 2 := by ring
  rw [h2]
  have h1 : (mean b - mean a = 0) ↔ (mean a - mean b = 0) :=
    ⟨fun h => by linarith, fun h => by linarith⟩
  exact if_congr Iff.rfl (if_congr h1 rfl rfl) rfl

/-- C5: swapping the two groups negates the difference and the effect
size (its numerator flips sign, the squared denominator is unchanged, so
its real value is negated), while the p-value and the significance flag
are unchanged. -/
theorem analyze_metric_swap_symmetry (sf : ℚ → ℕ → ℚ) (a b : List ℚ) :
    (analyze_metric sf b a).difference = -(analyze_metric sf a b).difference
  ∧ (analyze_metric sf b a).esNum = -(analyze_metric sf a b).esNum
  ∧ (analyze_metric sf b a).esMSq = (analyze_metric sf a b).esMSq
  ∧ ((analyze_metric sf b a).esNum : ℝ) /
        Real.sqrt ((analyze_metric sf b a).esMSq : ℝ)
      = -(((analyze_metric sf a b).esNum : ℝ) /
        Real.sqrt ((analyze_metric sf a b).esMSq : ℝ))
  ∧ (analyze_metric sf b a).p_value = (analyze_metric sf a b).p_value
  ∧ (analyze_metric sf b a).significant = (analyze_metric sf a b).significant := by
  have hn : (analyze_metric sf b a).esNum = -(analyze_metric sf a b).esNum := by
    simp only [analyze_metric]
    ring
  have hm : (analyze_metric sf b a).esMSq = (analyze_metric sf a b).esMSq := by
    simp only [analyze_metric]
    ring
  have hp : (analyze_metric sf b a).p_value = (analyze_metric sf a b).p_value := by
    simp only [analyze_metric]
    exact ttest_ind_p_comm sf a b
  refine ⟨?_, hn, hm, ?_, hp, ?_⟩
  · simp only [analyze_metric]
    ring
  · rw [hn, hm]
    push_cast
    rw [neg_div]
  · simp only [analyze_metric, ttest_ind_p_comm sf a b]

/-- C4 (amended): the effect size of analyze_metric is
(mean_A - mean_B) / sqrt((pvar_A + pvar_B) / 2), the mean difference over
the root mean square of the two population (ddof = 0) standard
deviations, as the snippet computes it. -/
theorem effect_size_formula (sf : ℚ → ℕ → ℚ) (a b : List ℚ) :
    (analyze_metric sf a b).esNum = mean a - mean b
  ∧ (analyze_metric sf a b).esMSq = (pvarQ a + pvarQ b) / 2
  ∧ ((analyze_metric sf a b).esNum : ℝ) /
        Real.sqrt ((analyze_metric sf a b).esMSq : ℝ)
      = ((mean a - mean b : ℚ) : ℝ) /
        Real.sqrt (((pvarQ a + pvarQ b) / 2 : ℚ) : ℝ) :=
  ⟨rfl, rfl, rfl⟩

/-- C4 (counterexample): at A = [0,2], B = [0,0] the effect size computed
by the snippet is 1/sqrt(1/2) = sqrt 2, while Cohen d with the pooled
standard deviation of the two samples is 1/sqrt 1 = 1; the two differ. -/
theorem effect_size_ne_pooled_cohens_d :
    ¬ (((analyze_metric sfHalf [0, 2] [0, 0]).esNum : ℝ) /
          Real.sqrt ((analyze_metric sfHalf [0, 2] [0, 0]).esMSq : ℝ)
        = ((cohensDNum [0, 2] [0, 0] : ℚ) : ℝ) /
          Real.sqrt ((cohensDMSq [0, 2] [0, 0] : ℚ) : ℝ)) := by
  have e1 : (analyze_metric sfHalf [0, 2] [0, 0]).esNum = 1 := by
    norm_num [analyze_metric, mean]
  have e2 : (analyze_metric sfHalf [0, 2] [0, 0]).esMSq = 1 / 2 := by
    norm_num [analyze_metric, pvarQ, mean]
  have e3 : cohensDNum [0, 2] [0, 0] = 1 := by
    norm_num [cohensDNum, mean]
  have e4 : cohensDMSq [0, 2] [0, 0] = 1 := by
    norm_num [cohensDMSq, pooledVar, svarQ, mean]
  rw [e1, e2, e3, e4]
  push_cast
  rw [Real.sqrt_one]
  intro h
  have hb : Real.sqrt ((1 : ℝ) / 2) ≠ 0 := by positivity
  rw [div_one, div_eq_one_iff_eq hb] at h
  have h2 : (1 : ℝ) ^ 2 = Real.sqrt ((1 : ℝ) / 2) ^ 2 :=
    congrArg (fun x : ℝ => x ^ 2) h
  rw [Real.sq_sqrt (by norm_num : (0 : ℝ) ≤ 1 / 2)] at h2
  norm_num at h2

/-- C1 (counterexample): the valid input A = [1,1], B = [1,1] (two
observations in each sample) drives scipy ttest_ind to 0/0: the p-value
is NaN, which does not lie in [0,1]. -/
theorem p_value_nan_on_degenerate_input :
    (analyze_metric sfHalf [1, 1] [1, 1]).p_value = none
  ∧ ¬ ∃ q : ℚ, (analyze_metric sfHalf [1, 1] [1, 1]).p_value = some q
      ∧ 0 ≤ q ∧ q ≤ 1 := by
  have h : (analyze_metric sfHalf [1, 1] [1, 1]).p_value = none := by
    norm_num [analyze_metric, ttest_ind_p, tDenomSq, pooledVar, svarQ, mean]
  exact ⟨h, by simp [h]⟩

/-- C1 (amended): for every valid input (at least two observations per
sample) that does not drive the t statistic to 0/0, the p-value is a
probability in [0,1] and the significance flag equals p_value < 0.05; in
the excluded 0/0 case the p-value is NaN (and the flag is false, the
Python value of NaN < 0.05). -/
theorem p_value_range_and_significance (sf : ℚ → ℕ → ℚ) (hsf : PContract sf)
    (a b : List ℚ) (h2a : 2 ≤ a.length) (h2b : 2 ≤ b.length)
    (hnd : ¬ (tDenomSq a b = 0 ∧ mean a - mean b = 0)) :
    ∃ q : ℚ, (analyze_metric sf a b).p_value = some q
      ∧ 0 ≤ q ∧ q ≤ 1
      ∧ (analyze_metric sf a b).significant = decide (q < 1 / 20) := by
  by_cases hd : tDenomSq a b = 0
  · have hm : ¬ (mean a - mean b = 0) := fun hm => hnd ⟨hd, hm⟩
    refine ⟨0, ?_, le_refl 0, by norm_num, ?_⟩
    · simp [analyze_metric, ttest_ind_p, hd, hm]
    · simp [analyze_metric, ttest_ind_p, sigOf, hd, hm]
  · refine ⟨sf ((mean a - mean b) ^ 2 / tDenomSq a b) (tdf a b), ?_, (hsf _ _).1,
      (hsf _ _).2, ?_⟩
    · simp [analyze_metric, ttest_ind_p, hd]
    · simp [analyze_metric, ttest_ind_p, sigOf, hd]

/-- C1 (witness): the amended theorem applied at A = B = [0,1] with the
stand-in tail function. -/
theorem p_value_range_and_significance_witness :
    ∃ q : ℚ, (analyze_metric sfHalf [0, 1] [0, 1]).p_value = some q
      ∧ 0 ≤ q ∧ q ≤ 1
      ∧ (analyze_metric sfHalf [0, 1] [0, 1]).significant = decide (q < 1 / 20) :=
  p_value_range_and_significance sfHalf
    (fun _ _ => by norm_num [sfHalf]) [0, 1] [0, 1]
    (by norm_num) (by norm_num)
    (by norm_num [tDenomSq, pooledVar, svarQ, mean])

/-- C6 (counterexample): at the valid degenerate input A = [3,3],
B = [4,4] (zero variance in both groups) the effect size denominator is
zero with a nonzero numerator, so the float effect size is -Inf; nothing
is detected and the result carries no annotation field at all. -/
theorem degenerate_input_unflagged :
    pvarQ [3, 3] = 0 ∧ pvarQ [4, 4] = 0
  ∧ (analyze_metric sfHalf [3, 3] [4, 4]).esMSq = 0
  ∧ (analyze_metric sfHalf [3, 3] [4, 4]).esNum ≠ 0
  ∧ hasNaNOrInf (analyze_metric sfHalf [3, 3] [4, 4]) = true := by
  refine ⟨by norm_num [pvarQ, mean], by norm_num [pvarQ, mean], ?_, ?_, ?_⟩
  · norm_num [analyze_metric, pvarQ, mean]
  · norm_num [analyze_metric, mean]
  · have hm : (analyze_metric sfHalf [3, 3] [4, 4]).esMSq = 0 := by
      norm_num [analyze_metric, pvarQ, mean]
    simp [hasNaNOrInf, hm]

/-- C6 (amended): when both groups have zero variance the snippet
produces NaN or infinite numeric fields (the effect size denominator is
zero) with no degenerate-case detection or annotation. -/
theorem zero_variance_yields_nan_or_inf (sf : ℚ → ℕ → ℚ) (a b : List ℚ)
    (ha : pvarQ a = 0) (hb : pvarQ b = 0) :
    (analyze_metric sf a b).esMSq = 0
  ∧ hasNaNOrInf (analyze_metric sf a b) = true := by
  have hm : (analyze_metric sf a b).esMSq = 0 := by
    simp [analyze_metric, ha, hb]
  exact ⟨hm, by simp [hasNaNOrInf, hm]⟩

/-- C6 (witness): the amended theorem applied at A = [3,3], B = [5,5]. -/
theorem zero_variance_yields_nan_or_inf_witness :
    (analyze_metric sfHalf [3, 3] [5, 5]).esMSq = 0
  ∧ hasNaNOrInf (analyze_metric sfHalf [3, 3] [5, 5]) = true :=
  zero_variance_yields_nan_or_inf sfHalf [3, 3] [5, 5]
    (by norm_num [pvarQ, mean]) (by norm_num [pvarQ, mean])

/-- C2: for a continuous metric without the non-normality hint, the
engine runs the Welch two-sample t-test: the resulting p-value is the
Welch tail at the Welch t statistic, whose square divides the squared
mean difference by sa2/na + sb2/nb without pooling the two variances
(so it assumes no equal variances and accepts unequal sample sizes),
at the rational Welch-Satterthwaite degrees of freedom. -/
theorem continuous_metric_uses_welch (lib : StatsLib) (ms : MetricSpec)
    (a b : List ℚ) (hc : ms.vtype = ValueType.continuous)
    (hn : ms.nonNormal = false) (h2a : 2 ≤ a.length) (h2b : 2 ≤ b.length) :
    ∃ r, analyzeMetricSpec lib ms a b = .ok r
      ∧ r.testName = "Welch two-sample t-test"
      ∧ r.p_value = lib.welchSf (welchTSq a b) (welchDf a b)
      ∧ welchTSq a b =
          (mean a - mean b) ^ 2 /
            (svarQ a / (a.length : ℚ) + svarQ b / (b.length : ℚ)) := by
  have hsz : ¬ (a.length < 2 ∨ b.length < 2) := by omega
  have hred : analyzeMetricSpec lib ms a b = Except.ok
      { metricName := ms.name
        meanA := mean a
        meanB := mean b
        difference := mean a - mean b
        testName := "Welch two-sample t-test"
        p_value := lib.welchSf (welchTSq a b) (welchDf a b)
        significant := decide (lib.welchSf (welchTSq a b) (welchDf a b) < 1 / 20)
        esNum := mean a - mean b
        esMSq := pooledVar a b } := by
    unfold analyzeMetricSpec
    rw [if_neg hsz, hc]
    simp [hn]
  exact ⟨_, hred, rfl, rfl, rfl⟩

/-- C2 (witness): the theorem applied to the concrete wait-time spec at
A = [10,12], B = [20,22] with the stand-in library. -/
theorem continuous_metric_uses_welch_witness :
    ∃ r, analyzeMetricSpec statsLib0 msWait [10, 12] [20, 22] = .ok r
      ∧ r.testName = "Welch two-sample t-test"
      ∧ r.p_value = statsLib0.welchSf (welchTSq [10, 12] [20, 22])
          (welchDf [10, 12] [20, 22])
      ∧ welchTSq [10, 12] [20, 22] =
          (mean [10, 12] - mean [20, 22]) ^ 2 /
            (svarQ [10, 12] / (([10, 12] : List ℚ).length : ℚ) +
              svarQ [20, 22] / (([20, 22] : List ℚ).length : ℚ)) :=
  continuous_metric_uses_welch statsLib0 msWait [10, 12] [20, 22]
    rfl rfl (by decide) (by decide)

theorem analyzeMetricSpec_small (lib : StatsLib) (ms : MetricSpec)
    (a b : List ℚ) (h : a.length < 2 ∨ b.length < 2) :
    analyzeMetricSpec lib ms a b = .error (.insufficientData ms.name) := by
  unfold analyzeMetricSpec
  rw [if_pos h]

theorem analyzeMetricSpec_ok (lib : StatsLib) (ms : MetricSpec)
    (a b : List ℚ) (h2a : 2 ≤ a.length) (h2b : 2 ≤ b.length)
    (hk : ∀ tag, ms.vtype ≠ ValueType.unknown tag) :
    ∃ r, analyzeMetricSpec lib ms a b = .ok r := by
  unfold analyzeMetricSpec
  rw [if_neg (by omega : ¬ (a.length < 2 ∨ b.length < 2))]
  cases hv : ms.vtype with
  | unknown tag => exact absurd hv (hk tag)
  | continuous => exact ⟨_, rfl⟩
  | proportion => exact ⟨_, rfl⟩

theorem compareAux_all_ok (lib : StatsLib)
    (samples : String → Option (List ℚ × List ℚ)) (specs : List MetricSpec)
    (hsome : ∀ ms ∈ specs, ∃ ab, samples ms.name = some ab)
    (hk : ∀ ms ∈ specs, ∀ tag, ms.vtype ≠ ValueType.unknown tag)
    (hsz : ∀ ms ∈ specs, ∀ a b, samples ms.name = some (a, b) →
      2 ≤ a.length ∧ 2 ≤ b.length) :
    ∃ rs, compareAux lib samples specs = .ok rs := by
  induction specs with
  | nil => exact ⟨[], rfl⟩
  | cons ms rest ih =>
    obtain ⟨⟨a, b⟩, hab⟩ := hsome ms (by simp)
    obtain ⟨h2a, h2b⟩ := hsz ms (by simp) a b hab
    obtain ⟨r, hr⟩ := analyzeMetricSpec_ok lib ms a b h2a h2b (hk ms (by simp))
    obtain ⟨rs, hrs⟩ := ih
      (fun m hm => hsome m (by simp [hm]))
      (fun m hm => hk m (by simp [hm]))
      (fun m hm => hsz m (by simp [hm]))
    exact ⟨r :: rs, by simp [compareAux, hab, hr, hrs]⟩

theorem compareAux_small_err (lib : StatsLib)
    (samples : String → Option (List ℚ × List ℚ)) (specs : List MetricSpec)
    (hsome : ∀ ms ∈ specs, ∃ ab, samples ms.name = some ab)
    (hk : ∀ ms ∈ specs, ∀ tag, ms.vtype ≠ ValueType.unknown tag)
    (hbad : ∃ ms ∈ specs, ∃ a b, samples ms.name = some (a, b) ∧
      (a.length < 2 ∨ b.length < 2)) :
    ∃ m, compareAux lib samples specs = .error (.insufficientData m) := by
  induction specs with
  | nil =>
    obtain ⟨ms, hms, -⟩ := hbad
    simp at hms
  | cons ms rest ih =>
    obtain ⟨⟨a, b⟩, hab⟩ := hsome ms (by simp)
    by_cases hsmall : a.length < 2 ∨ b.length < 2
    · exact ⟨ms.name,
        by simp [compareAux, hab, analyzeMetricSpec_small lib ms a b hsmall]⟩
    · push_neg at hsmall
      obtain ⟨r, hr⟩ :=
        analyzeMetricSpec_ok lib ms a b hsmall.1 hsmall.2 (hk ms (by simp))
      have hbad2 : ∃ m ∈ rest, ∃ a2 b2, samples m.name = some (a2, b2) ∧
          (a2.length < 2 ∨ b2.length < 2) := by
        obtain ⟨m, hm, a2, b2, hab2, hsm⟩ := hbad
        rcases List.mem_cons.mp hm with rfl | hmr
        · rw [hab] at hab2
          obtain ⟨rfl, rfl⟩ := Prod.mk.injEq .. |>.mp (Option.some.inj hab2)
          rcases hsm with h | h
          · omega
          · omega
        · exact ⟨m, hmr, a2, b2, hab2, hsm⟩
      obtain ⟨m, hmErr⟩ := ih
        (fun m2 hm2 => hsome m2 (by simp [hm2]))
        (fun m2 hm2 => hk m2 (by simp [hm2])) hbad2
      exact ⟨m, by simp [compareAux, hab, hr, hmErr]⟩

/-- C3: under well-formed specs (every metric has samples and a known
value type), a compare call in which some metric has a sample with fewer
than two observations fails with InsufficientDataError, and a call in
which every sample has at least two observations succeeds with a
report. -/
theorem compare_insufficient_data_boundary (lib : StatsLib)
    (inp : CompareInput)
    (hsome : ∀ ms ∈ inp.specs, ∃ ab, inp.samples ms.name = some ab)
    (hk : ∀ ms ∈ inp.specs, ∀ tag, ms.vtype ≠ ValueType.unknown tag) :
    ((∃ ms ∈ inp.specs, ∃ a b, inp.samples ms.name = some (a, b) ∧
        (a.length < 2 ∨ b.length < 2)) →
      ∃ m, compare lib inp = .error (.insufficientData m))
  ∧ ((∀ ms ∈ inp.specs, ∀ a b, inp.samples ms.name = some (a, b) →
        2 ≤ a.length ∧ 2 ≤ b.length) →
      ∃ report, compare lib inp = .ok report) := by
  constructor
  · intro hbad
    obtain ⟨m, hm⟩ :=
      compareAux_small_err lib inp.samples inp.specs hsome hk hbad
    exact ⟨m, by simp [compare, hm]⟩
  · intro hsz
    obtain ⟨rs, hrs⟩ := compareAux_all_ok lib inp.samples inp.specs hsome hk hsz
    exact ⟨{ results := rs, verdict := verdictOf (inp.specs.zip rs) },
      by simp [compare, hrs]⟩

/-- C3 (witness): the theorem applied to the concrete one-metric input
with two observations per group; its acceptance half yields a report. -/
theorem compare_insufficient_data_boundary_witness :
    ∃ report, compare statsLib0 inpWait = .ok report :=
  (compare_insufficient_data_boundary statsLib0 inpWait
    (by intro ms hms
        simp only [inpWait, List.mem_singleton] at hms
        subst hms
        exact ⟨([10, 12], [20, 22]), by simp [inpWait, msWait]⟩)
    (by intro ms hms tag
        simp only [inpWait, List.mem_singleton] at hms
        subst hms
        simp [msWait])).2
    (by intro ms hms a b hab
        simp only [inpWait, List.mem_singleton] at hms
        subst hms
        simp only [inpWait, msWait] at hab
        norm_num at hab
        obtain ⟨rfl, rfl⟩ := hab
        constructor <;> norm_num)

/-- C7: the compare operation is deterministic and stateless. In a
session of successive calls, the last output is a function of the last
input alone, unchanged under any change of the earlier calls, and two
identical calls produce identical outputs. -/
theorem compare_deterministic_stateless (lib : StatsLib)
    (prev1 prev2 : List CompareInput) (c : CompareInput) :
    (compareSession lib (prev1 ++ [c])).getLast? = some (compare lib c)
  ∧ (compareSession lib (prev1 ++ [c])).getLast? =
      (compareSession lib (prev2 ++ [c])).getLast?
  ∧ compareSession lib [c, c] = [compare lib c, compare lib c] := by
  have key : ∀ prev : List CompareInput,
      (compareSession lib (prev ++ [c])).getLast? = some (compare lib c) := by
    intro prev
    unfold compareSession
    rw [List.map_append]
    simp
  exact ⟨key prev1, by rw [key prev1, key prev2], rfl⟩

end MedOptix

namespace MedOptix.ApiService

/-- C8: every network-backed fetch function resolves with a value for
every request outcome: the real-time fetchers return the response data
and fall back to the empty array on any request error, and the two
mock-gated dashboard fetchers (whose catch clauses also fall back to the
empty array) resolve with their mock payloads under the USE_MOCK_DATA
constant of the source; none of them propagates the error. -/
theorem api_fetch_never_rejects {α : Type} (e : String) (d : List α)
    (now : ℤ) (rnd : ℕ → ℚ)
    (r1 : Except String (List Alert)) (r2 : Except String (List Predicted)) :
    fetchAppointments (Except.error e) = ([] : List α)
  ∧ fetchAppointments (Except.ok d) = d
  ∧ fetchFeedback (Except.error e) = ([] : List α)
  ∧ fetchService (Except.error e) = ([] : List α)
  ∧ fetchStaff (Except.error e) = ([] : List α)
  ∧ alertsRequest (Except.error e) = []
  ∧ predictedRequest (Except.error e) = []
  ∧ getRecentAlerts now r1 = mockAlerts now
  ∧ getPredictedAppointments rnd r2 = mockPredicted rnd :=
  ⟨rfl, rfl, rfl, rfl, rfl, rfl, rfl, rfl, rfl⟩

/-- C9: with mock data enabled, getABTestingResults always resolves to
the fixed payload of exactly two variants; in each variant the show-up
and no-show rates sum to 1, the two variants carry the same p-value, and
exactly one variant is the Winner, namely the one whose show-up rate is
strictly higher than every other variant (the lookup the ABTesting page
performs). -/
theorem mock_ab_results_invariants :
    USE_MOCK_DATA = true
  ∧ (∀ r : Except String ABResults,
      getABTestingResults r = some mockABTestingResults)
  ∧ mockABTestingResults.variants.length = 2
  ∧ (∀ v ∈ mockABTestingResults.variants, v.show_up_rate + v.no_show_rate = 1)
  ∧ (∀ v ∈ mockABTestingResults.variants, ∀ w ∈ mockABTestingResults.variants,
      v.p_value = w.p_value)
  ∧ (mockABTestingResults.variants.filter
      (fun v => decide (v.result = "Winner"))).length = 1
  ∧ (∀ v ∈ mockABTestingResults.variants,
      (v.result = "Winner" ↔
        ∀ w ∈ mockABTestingResults.variants, w ≠ v →
          w.show_up_rate < v.show_up_rate)) := by
  have hmem : mockABTestingResults.variants = [smsVariant, emailVariant] := rfl
  have hne : smsVariant ≠ emailVariant := by
    intro heq
    have hnm := congrArg Variant.name heq
    simp [smsVariant, emailVariant] at hnm
  refine ⟨rfl, fun r => rfl, rfl, ?_, ?_, rfl, ?_⟩
  · intro v hv
    rw [hmem] at hv
    rcases List.mem_pair.mp hv with rfl | rfl <;>
      norm_num [smsVariant, emailVariant]
  · intro v hv w hw
    rw [hmem] at hv
    rw [hmem] at hw
    rcases List.mem_pair.mp hv with rfl | rfl <;>
      rcases List.mem_pair.mp hw with rfl | rfl <;> rfl
  · intro v hv
    rw [hmem] at hv
    rcases List.mem_pair.mp hv with rfl | rfl
    · constructor
      · intro _ w hw hwne
        rw [hmem] at hw
        rcases List.mem_pair.mp hw with rfl | rfl
        · exact absurd rfl hwne
        · norm_num [smsVariant, emailVariant]
      · intro _
        rfl
    · constructor
      · intro h
        exact absurd h (by simp [emailVariant])
      · intro h
        exfalso
        have h2 := h smsVariant (by rw [hmem]; simp) hne
        norm_num [smsVariant, emailVariant] at h2

/-- C9 (witness): the invariant theorem applied to the concrete SMS
variant, discharging its membership hypothesis. -/
theorem mock_ab_results_invariants_witness :
    smsVariant.show_up_rate + smsVariant.no_show_rate = 1 :=
  mock_ab_results_invariants.2.2.2.1 smsVariant (by simp [mockABTestingResults])

/-- C10 (counterexample): after a first successful call that fetches a
null timestamp (stored, per the source), a later successful call fetching
a real timestamp differs from the stored value and yet returns false
(the claimed iff predicts true). -/
theorem checkForUpdates_falsy_first_counterexample :
    (checkForUpdates none (Except.ok none)).2 = false
  ∧ (checkForUpdates none (Except.ok none)).1 = none
  ∧ some "2025-06-26 18:18:32" ≠ (checkForUpdates none (Except.ok none)).1
  ∧ (checkForUpdates (checkForUpdates none (Except.ok none)).1
      (Except.ok (some "2025-06-26 18:18:32"))).2 = false :=
  ⟨rfl, rfl, by simp [checkForUpdates, jsTruthy], rfl⟩

/-- C10 (amended): checkForUpdates returns false on an error outcome
leaving the store unchanged; on a successful outcome it returns true
exactly when the stored timestamp is truthy (non-null, non-empty) and
the fetched timestamp differs from it, storing the fetched value, while
a falsy stored timestamp is replaced by the fetched value with result
false (so the first successful call returns false and stores the fetched
timestamp). -/
theorem checkForUpdates_behavior (stored : Option String) :
    (∀ e, checkForUpdates stored (Except.error e) = (stored, false))
  ∧ (∀ t, jsTruthy stored = true → t ≠ stored →
      checkForUpdates stored (Except.ok t) = (t, true))
  ∧ (∀ t, jsTruthy stored = true → t = stored →
      checkForUpdates stored (Except.ok t) = (stored, false))
  ∧ (∀ t, jsTruthy stored = false →
      checkForUpdates stored (Except.ok t) = (t, false)) := by
  refine ⟨fun e => rfl, fun t ht hne => ?_, fun t ht heq => ?_, fun t hf => ?_⟩
  · simp [checkForUpdates, ht, hne]
  · subst heq
    simp [checkForUpdates, ht]
  · simp [checkForUpdates, hf]

/-- C10 (witness): the amended theorem applied to a truthy stored
timestamp and a different fetched one: the call reports an update. -/
theorem checkForUpdates_behavior_witness :
    checkForUpdates (some "2025-06-26 18:00:00")
      (Except.ok (some "2025-06-26 18:18:32")) =
      (some "2025-06-26 18:18:32", true) :=
  (checkForUpdates_behavior (some "2025-06-26 18:00:00")).2.1
    (some "2025-06-26 18:18:32") rfl (by simp)

end MedOptix.ApiService
